import Mathlib

/-!
# Verification of the rental-dashboard financial-metrics engine

Shallow embedding, over exact rationals, of the financial core of the
rental-dashboard repository:

* `src/app/real_estate_logic.py` — data preparation
  (`filter_and_label_zips`, `prepare_merged_data`, `get_national_training_data`)
  and the batch metrics engine `calculate_financial_metrics`;
* `src/test_only.py` — the fixed 80% loan-to-value duplicate of the engine;
* `src/app/dashboard_app.py` — the Deal Analyzer recomputation path
  (`run_deal_analyzer_tab`) and the per-ZIP rent `adjustment_ratio`.

Python floats are modelled by `ℚ`; note that in this embedding division by
zero is total and returns `0` (where pandas/numpy float division yields
`±inf`/`NaN` without raising).  Tables are lists of rows; a cell holds
`Option ℚ`, with `none` standing for a missing or non-numeric entry
(what `pd.to_numeric(errors := coerce)` turns into `NaN`).
-/

namespace RentalDashboard

/-- The assumption set: the `params` dict read from the sidebar session state
(`defaults` in `src/app/dashboard_app.py`).  As in the source, `interest_rate`,
`down_payment_pct`, `closing_cost_pct`, `marginal_tax_rate` and
`property_tax_rate` are stored as percents, the remaining rates as 0..1
fractions; `appreciation_years` is an integer number of years. -/
structure Params where
  interest_rate : ℚ
  down_payment_pct : ℚ
  closing_cost_pct : ℚ
  maintenance_rate : ℚ
  insurance_annual : ℚ
  vacancy_rate : ℚ
  property_mgmt_pct : ℚ
  capex_monthly : ℚ
  marginal_tax_rate : ℚ
  structure_pct : ℚ
  annual_appreciation_pct : ℚ
  appreciation_years : ℕ
  property_tax_rate : ℚ
deriving DecidableEq

/-- DEPRECIATION_YEARS = 27.5, the constant shared by all three source files. -/
def DEPRECIATION_YEARS : ℚ := 27.5

/-- months = 30 * 12, the fixed payment term used at every call site. -/
def months : ℕ := 30 * 12

/-- The monthly mortgage payment exactly as the source writes it at all three
call sites (`real_estate_logic.py` line 91, `test_only.py` line 136,
`dashboard_app.py` line 194):
`loan * (monthly_int * (1 + monthly_int) ** months) / ((1 + monthly_int) ** months - 1)`.
There is no guard for `r = 0`; in that case the denominator is `0` and this
total-division embedding returns `0` (the float code produces `NaN`). -/
def annuityPmt (L r : ℚ) : ℚ :=
  L * (r * (1 + r) ^ months) / ((1 + r) ^ months - 1)

/-- The month-by-month amortization loop shared by every engine copy:
`int_pmt = bal * r; princ_pmt = pmt - int_pmt; paid += princ_pmt; bal -= princ_pmt`,
iterated `n` times starting from accumulator `paid` and balance `bal`.
Returns the pair `(paid, bal)` after the loop. -/
def amortize (pmt r paid bal : ℚ) : ℕ → ℚ × ℚ
  | 0 => (paid, bal)
  | n + 1 => amortize pmt r (paid + (pmt - bal * r)) (bal - (pmt - bal * r)) n

/-- The per-row output columns of `calculate_financial_metrics` in
`src/app/real_estate_logic.py`. -/
structure RowMetrics where
  Down_Payment : ℚ
  Loan_Amount : ℚ
  Monthly_CF : ℚ
  Annual_CF : ℚ
  Cash_Down : ℚ
  Closing_Costs : ℚ
  Cash_In : ℚ
  Structure_Value : ℚ
  Depreciation : ℚ
  Tax_Savings : ℚ
  Basic_CoC : ℚ
  Advanced_CoC : ℚ
  Appreciation_Gain : ℚ
  Equity_From_Paydown : ℚ
  MultiYear_Income_Gain : ℚ
  Total_Return : ℚ
  Total_ROC : ℚ
deriving DecidableEq

/-- Per-row translation of `calculate_financial_metrics`
(`src/app/real_estate_logic.py`, lines 80-157).  The pandas code computes the
same arithmetic column-wise; per row the composition is exactly this. -/
def calculateFinancialMetrics (p : Params) (price rent : ℚ) : RowMetrics :=
  let monthly_int := p.interest_rate / 100 / 12
  let years := p.appreciation_years
  let down := price * (p.down_payment_pct / 100)
  let loan := price - down
  let mortgage := annuityPmt loan monthly_int
  let expenses := mortgage + p.insurance_annual / 12 + price * p.maintenance_rate / 12
    + rent * p.vacancy_rate + rent * p.property_mgmt_pct + p.capex_monthly
    + price * (p.property_tax_rate / 100) / 12
  let monthly_cf := rent - expenses
  let annual_cf := monthly_cf * 12
  let cash_in := down + price * (p.closing_cost_pct / 100)
  let structure_value := price * p.structure_pct
  let depreciation := structure_value / DEPRECIATION_YEARS
  let tax_savings := depreciation * (p.marginal_tax_rate / 100)
  let principal_year1 := (amortize mortgage monthly_int 0 loan 12).1
  let total_principal := (amortize mortgage monthly_int 0 loan (years * 12)).1
  let app_rate := p.annual_appreciation_pct / 100
  let appreciation_gain := price * (1 + app_rate) ^ years - price
  let multi_year := annual_cf * years + tax_savings * years + total_principal
  { Down_Payment := down
    Loan_Amount := loan
    Monthly_CF := monthly_cf
    Annual_CF := annual_cf
    Cash_Down := down
    Closing_Costs := price * (p.closing_cost_pct / 100)
    Cash_In := cash_in
    Structure_Value := structure_value
    Depreciation := depreciation
    Tax_Savings := tax_savings
    Basic_CoC := annual_cf / cash_in * 100
    Advanced_CoC := (annual_cf + tax_savings + principal_year1) / cash_in * 100
    Appreciation_Gain := appreciation_gain
    Equity_From_Paydown := total_principal
    MultiYear_Income_Gain := multi_year
    Total_Return := appreciation_gain + multi_year
    Total_ROC := (appreciation_gain + multi_year) / cash_in * 100 }

/-- LOAN_TO_VALUE = 0.8, the hardcoded ratio of the duplicate engine in
`src/test_only.py`. -/
def LOAN_TO_VALUE : ℚ := 0.8

/-- The parameter dict of `src/test_only.py`: same fields as `Params` but with
no `down_payment_pct` (the down payment is fixed by `LOAN_TO_VALUE`). -/
structure FixedParams where
  interest_rate : ℚ
  closing_cost_pct : ℚ
  maintenance_rate : ℚ
  insurance_annual : ℚ
  vacancy_rate : ℚ
  property_mgmt_pct : ℚ
  capex_monthly : ℚ
  marginal_tax_rate : ℚ
  structure_pct : ℚ
  annual_appreciation_pct : ℚ
  appreciation_years : ℕ
  property_tax_rate : ℚ
deriving DecidableEq

/-- The `Params` value obtained from a `FixedParams` by adding an explicit
down-payment percent (the reconciliation direction named by the spec). -/
def FixedParams.withDownPayment (fp : FixedParams) (dp : ℚ) : Params :=
  { interest_rate := fp.interest_rate
    down_payment_pct := dp
    closing_cost_pct := fp.closing_cost_pct
    maintenance_rate := fp.maintenance_rate
    insurance_annual := fp.insurance_annual
    vacancy_rate := fp.vacancy_rate
    property_mgmt_pct := fp.property_mgmt_pct
    capex_monthly := fp.capex_monthly
    marginal_tax_rate := fp.marginal_tax_rate
    structure_pct := fp.structure_pct
    annual_appreciation_pct := fp.annual_appreciation_pct
    appreciation_years := fp.appreciation_years
    property_tax_rate := fp.property_tax_rate }

/-- The per-row output columns of `calculate_financial_metrics` in
`src/test_only.py` (note the different multi-year column names). -/
structure RowMetricsLTV where
  Monthly_CF : ℚ
  Annual_CF : ℚ
  Cash_Down : ℚ
  Closing_Costs : ℚ
  Cash_In : ℚ
  Structure_Value : ℚ
  Depreciation : ℚ
  Tax_Savings : ℚ
  Basic_CoC : ℚ
  Advanced_CoC : ℚ
  Appreciation_Gain : ℚ
  Equity_From_Paydown : ℚ
  MultiYear_Advanced_CoC_Dollars : ℚ
  Total_Equity_Gain : ℚ
  Total_ROC : ℚ
deriving DecidableEq

/-- Per-row translation of the fixed-LTV `calculate_financial_metrics`
(`src/test_only.py`, lines 127-194): `loan_amt = Home_Price * LOAN_TO_VALUE`,
`Cash_Down = Home_Price * (1 - LOAN_TO_VALUE)`, rest identical in form. -/
def calculateFinancialMetricsLTV (p : FixedParams) (price rent : ℚ) : RowMetricsLTV :=
  let monthly_int := p.interest_rate / 100 / 12
  let years := p.appreciation_years
  let loan_amt := price * LOAN_TO_VALUE
  let mortgage := annuityPmt loan_amt monthly_int
  let expenses := mortgage + p.insurance_annual / 12 + price * p.maintenance_rate / 12
    + rent * p.vacancy_rate + rent * p.property_mgmt_pct + p.capex_monthly
    + price * (p.property_tax_rate / 100) / 12
  let monthly_cf := rent - expenses
  let annual_cf := monthly_cf * 12
  let cash_down := price * (1 - LOAN_TO_VALUE)
  let cash_in := cash_down + price * (p.closing_cost_pct / 100)
  let structure_value := price * p.structure_pct
  let depreciation := structure_value / DEPRECIATION_YEARS
  let tax_savings := depreciation * (p.marginal_tax_rate / 100)
  let principal_year1 := (amortize mortgage monthly_int 0 loan_amt 12).1
  let total_principal := (amortize mortgage monthly_int 0 loan_amt (years * 12)).1
  let app_rate := p.annual_appreciation_pct / 100
  let appreciation_gain := price * (1 + app_rate) ^ years - price
  let multi_year := annual_cf * years + tax_savings * years + total_principal
  { Monthly_CF := monthly_cf
    Annual_CF := annual_cf
    Cash_Down := cash_down
    Closing_Costs := price * (p.closing_cost_pct / 100)
    Cash_In := cash_in
    Structure_Value := structure_value
    Depreciation := depreciation
    Tax_Savings := tax_savings
    Basic_CoC := annual_cf / cash_in * 100
    Advanced_CoC := (annual_cf + tax_savings + principal_year1) / cash_in * 100
    Appreciation_Gain := appreciation_gain
    Equity_From_Paydown := total_principal
    MultiYear_Advanced_CoC_Dollars := multi_year
    Total_Equity_Gain := appreciation_gain + multi_year
    Total_ROC := (appreciation_gain + multi_year) / cash_in * 100 }

/-- The metrics displayed by the Deal Analyzer tab. -/
structure DealMetrics where
  loan_amount : ℚ
  cash_in : ℚ
  monthly_cf : ℚ
  annual_cf : ℚ
  basic_coc : ℚ
  first_year_roi : ℚ
  total_return : ℚ
  total_roc : ℚ
deriving DecidableEq

/-- Translation of the metric recomputation inside `run_deal_analyzer_tab`
(`src/app/dashboard_app.py`, lines 186-241).  `dp` is the tab's own
down-payment slider; the other assumptions come from the session-state
`Params`.  Note line 227 of the source:
`total_advanced = annual_cf * years + tax_savings * years + bal - loan_amount`,
where `bal` is the balance left after the 12-month year-one loop. -/
def dealAnalyzer (p : Params) (price rent dp : ℚ) : DealMetrics :=
  let loan_amount := price * (1 - dp / 100)
  let closing_costs := price * (p.closing_cost_pct / 100)
  let cash_down := price * (dp / 100)
  let cash_in := cash_down + closing_costs
  let monthly_int := p.interest_rate / 100 / 12
  let mortgage := annuityPmt loan_amount monthly_int
  let expenses := mortgage + p.insurance_annual / 12 + price * p.maintenance_rate / 12
    + rent * p.vacancy_rate + rent * p.property_mgmt_pct + p.capex_monthly
    + price * (p.property_tax_rate / 100) / 12
  let monthly_cf := rent - expenses
  let annual_cf := monthly_cf * 12
  let structure_value := price * p.structure_pct
  let depreciation := structure_value / DEPRECIATION_YEARS
  let tax_savings := depreciation * (p.marginal_tax_rate / 100)
  let year1 := amortize mortgage monthly_int 0 loan_amount 12
  let principal_paid := year1.1
  let bal := year1.2
  let years := p.appreciation_years
  let app_rate := p.annual_appreciation_pct / 100
  let appreciation_gain := price * ((1 + app_rate) ^ years - 1)
  let total_advanced := annual_cf * years + tax_savings * years + bal - loan_amount
  let total_return := appreciation_gain + total_advanced
  { loan_amount := loan_amount
    cash_in := cash_in
    monthly_cf := monthly_cf
    annual_cf := annual_cf
    basic_coc := annual_cf / cash_in * 100
    first_year_roi := (annual_cf + tax_savings + principal_paid) / cash_in * 100
    total_return := total_return
    total_roc := total_return / cash_in * 100 }

/-- The `defaults` dict of `src/app/dashboard_app.py` (lines 44-58). -/
def dashboardDefaults : Params :=
  { interest_rate := 7
    down_payment_pct := 20
    closing_cost_pct := 2
    maintenance_rate := 0.015
    insurance_annual := 1300
    vacancy_rate := 0.05
    property_mgmt_pct := 0.08
    capex_monthly := 300
    marginal_tax_rate := 24
    structure_pct := 0.85
    annual_appreciation_pct := 3
    appreciation_years := 5
    property_tax_rate := 0.41 }

/-! ## Amortization lemmas -/

/-- Principal paid plus remaining balance is invariant across the loop. -/
lemma amortize_fst_add_snd (pmt r : ℚ) :
    ∀ (n : ℕ) (paid bal : ℚ),
      (amortize pmt r paid bal n).1 + (amortize pmt r paid bal n).2 = paid + bal := by
  intro n
  induction n with
  | zero => intro paid bal; simp [amortize]
  | succ n ih =>
      intro paid bal
      rw [amortize, ih]
      ring

/-- Closed form for the balance after `n` iterations of the loop. -/
lemma amortize_snd_closed (pmt r : ℚ) :
    ∀ (n : ℕ) (paid bal : ℚ),
      (amortize pmt r paid bal n).2
        = bal * (1 + r) ^ n - pmt * ∑ i ∈ Finset.range n, (1 + r) ^ i := by
  intro n
  induction n with
  | zero => intro paid bal; simp [amortize]
  | succ n ih =>
      intro paid bal
      rw [amortize, ih, Finset.sum_range_succ]
      ring

/-- Closed form for the total principal paid when the loop is driven by the
source's annuity payment: `L * ((1+r)^n - 1) / ((1+r)^360 - 1)`. -/
lemma amortize_annuity_paid (L r : ℚ) (hr : 0 < r) (n : ℕ) :
    (amortize (annuityPmt L r) r 0 L n).1
      = L * ((1 + r) ^ n - 1) / ((1 + r) ^ months - 1) := by
  have hx1 : (1 : ℚ) < 1 + r := by linarith
  have hX : (1 : ℚ) < (1 + r) ^ months :=
    one_lt_pow₀ hx1 (by norm_num [months])
  have hXne : (1 + r) ^ months - 1 ≠ 0 := by linarith
  have hrne : r ≠ 0 := ne_of_gt hr
  have hsum : ∑ i ∈ Finset.range n, (1 + r) ^ i = ((1 + r) ^ n - 1) / r := by
    rw [geom_sum_eq (by linarith : (1 : ℚ) + r ≠ 1)]
    ring_nf
  have hpaid : (amortize (annuityPmt L r) r 0 L n).1
      = 0 + L - (amortize (annuityPmt L r) r 0 L n).2 := by
    have h := amortize_fst_add_snd (annuityPmt L r) r n 0 L
    linarith
  rw [hpaid, amortize_snd_closed, hsum, annuityPmt]
  field_simp
  ring

/-- With payment and rate both `0` the loop is the identity on `(paid, bal)`. -/
lemma amortize_zero_zero :
    ∀ (n : ℕ) (paid bal : ℚ), amortize 0 0 paid bal n = (paid, bal) := by
  intro n
  induction n with
  | zero => intro paid bal; simp [amortize]
  | succ n ih => intro paid bal; rw [amortize]; simpa using ih paid bal

/-! ## C2 — the zero-rate branch -/

/-- C2 counterexample: the claim says `monthly_payment(L, 0, n) = L / n` for
`L > 0`, `n > 0`.  At `L = 360`, `n = 360` (the fixed term used by the code)
the source's payment expression has denominator `(1+0)^360 - 1 = 0`; there is
no zero-rate guard, and the computation does not return `L / n = 1`
(exact total-division embedding: `0`; the float code: `NaN`). -/
theorem monthly_payment_zero_rate_counterexample :
    annuityPmt 360 0 ≠ (360 : ℚ) / 360 := by
  norm_num [annuityPmt, months]

/-- C2 (amended): the divide-by-zero at `r = 0` is NOT guarded.  For every
loan `L > 0` the denominator `(1+r)^360 - 1` of the annuity formula is `0` at
`r = 0`, and the computed payment is not the claimed fallback `L / 360`
(the embedding's total division gives `0`; the float code gives `NaN`). -/
theorem monthly_payment_zero_rate_unguarded (L : ℚ) (hL : 0 < L) :
    ((1 : ℚ) + 0) ^ months - 1 = 0 ∧ annuityPmt L 0 = 0 ∧ annuityPmt L 0 ≠ L / 360 := by
  refine ⟨by norm_num, by norm_num [annuityPmt, months], ?_⟩
  have h : annuityPmt L 0 = 0 := by norm_num [annuityPmt, months]
  rw [h]
  have hpos : 0 < L / 360 := by positivity
  exact ne_of_lt hpos

/-- Witness for `monthly_payment_zero_rate_unguarded` at `L = 720`. -/
theorem monthly_payment_zero_rate_unguarded_witness :
    0 < (720 : ℚ) ∧
      (((1 : ℚ) + 0) ^ months - 1 = 0 ∧ annuityPmt 720 0 = 0 ∧ annuityPmt 720 0 ≠ 720 / 360) :=
  ⟨by norm_num, monthly_payment_zero_rate_unguarded 720 (by norm_num)⟩

/-! ## C3 — full amortization clears the loan -/

/-- C3 counterexample: the claim quantifies over monthly rates `r ≥ 0`.  At
`L = 360 > 0`, `r = 0`, the payment produced by the source formula is the
degenerate divide-by-zero value (not `L/360`), and simulating the full
360-month loop pays off `0` principal, not `L`. -/
theorem full_amortization_zero_rate_counterexample :
    (amortize (annuityPmt 360 0) 0 0 360 360).1 ≠ 360 := by
  have h : annuityPmt 360 0 = 0 := by norm_num [annuityPmt, months]
  rw [h, amortize_zero_zero]
  norm_num

/-- C3 (amended): for every loan `L > 0` and monthly rate `r > 0` (rather
than `r ≥ 0`: the zero-rate payment is the unguarded divide-by-zero of C2),
running the source's amortization loop for the full 360-month term with the
source's annuity payment pays off exactly `L` — exact over `ℚ`. -/
theorem full_amortization_clears_loan (L r : ℚ) (_hL : 0 < L) (hr : 0 < r) :
    (amortize (annuityPmt L r) r 0 L months).1 = L := by
  rw [amortize_annuity_paid L r hr months]
  have hX : (1 : ℚ) < (1 + r) ^ months :=
    one_lt_pow₀ (by linarith) (by norm_num [months])
  rw [mul_div_assoc, div_self (by linarith), mul_one]

/-- Witness for `full_amortization_clears_loan` at the spec's worked example:
`L = 320000` (price 400000, 20% down), 7% annual rate (`r = 7/1200`). -/
theorem full_amortization_clears_loan_witness :
    0 < (320000 : ℚ) ∧ 0 < (7 / 1200 : ℚ) ∧
      (amortize (annuityPmt 320000 (7 / 1200)) (7 / 1200) 0 320000 months).1 = 320000 :=
  ⟨by norm_num, by norm_num,
    full_amortization_clears_loan 320000 (7 / 1200) (by norm_num) (by norm_num)⟩

/-! ## C7 — the fixed-LTV duplicate engine is the configurable engine at 20% down -/

/-- Numeric value of the fixed loan-to-value constant. -/
lemma LOAN_TO_VALUE_eq : LOAN_TO_VALUE = 4 / 5 := by norm_num [LOAN_TO_VALUE]

/-- C7: the fixed 80% loan-to-value `calculate_financial_metrics` of
`src/test_only.py` is a special case of the configurable engine of
`src/app/real_estate_logic.py`: for every parameter set, price and rent, its
output equals, column by corresponding column, the configurable engine called
with `down_payment_pct = 20` and the same remaining parameters
(`Total_Equity_Gain` corresponds to `Total_Return` and
`MultiYear_Advanced_CoC_Dollars` to `MultiYear_Income_Gain`). -/
theorem fixed_ltv_engine_is_special_case (fp : FixedParams) (price rent : ℚ) :
    (calculateFinancialMetricsLTV fp price rent).Monthly_CF
        = (calculateFinancialMetrics (fp.withDownPayment 20) price rent).Monthly_CF ∧
    (calculateFinancialMetricsLTV fp price rent).Annual_CF
        = (calculateFinancialMetrics (fp.withDownPayment 20) price rent).Annual_CF ∧
    (calculateFinancialMetricsLTV fp price rent).Cash_Down
        = (calculateFinancialMetrics (fp.withDownPayment 20) price rent).Cash_Down ∧
    (calculateFinancialMetricsLTV fp price rent).Closing_Costs
        = (calculateFinancialMetrics (fp.withDownPayment 20) price rent).Closing_Costs ∧
    (calculateFinancialMetricsLTV fp price rent).Cash_In
        = (calculateFinancialMetrics (fp.withDownPayment 20) price rent).Cash_In ∧
    (calculateFinancialMetricsLTV fp price rent).Structure_Value
        = (calculateFinancialMetrics (fp.withDownPayment 20) price rent).Structure_Value ∧
    (calculateFinancialMetricsLTV fp price rent).Depreciation
        = (calculateFinancialMetrics (fp.withDownPayment 20) price rent).Depreciation ∧
    (calculateFinancialMetricsLTV fp price rent).Tax_Savings
        = (calculateFinancialMetrics (fp.withDownPayment 20) price rent).Tax_Savings ∧
    (calculateFinancialMetricsLTV fp price rent).Basic_CoC
        = (calculateFinancialMetrics (fp.withDownPayment 20) price rent).Basic_CoC ∧
    (calculateFinancialMetricsLTV fp price rent).Advanced_CoC
        = (calculateFinancialMetrics (fp.withDownPayment 20) price rent).Advanced_CoC ∧
    (calculateFinancialMetricsLTV fp price rent).Appreciation_Gain
        = (calculateFinancialMetrics (fp.withDownPayment 20) price rent).Appreciation_Gain ∧
    (calculateFinancialMetricsLTV fp price rent).Equity_From_Paydown
        = (calculateFinancialMetrics (fp.withDownPayment 20) price rent).Equity_From_Paydown ∧
    (calculateFinancialMetricsLTV fp price rent).MultiYear_Advanced_CoC_Dollars
        = (calculateFinancialMetrics (fp.withDownPayment 20) price rent).MultiYear_Income_Gain ∧
    (calculateFinancialMetricsLTV fp price rent).Total_Equity_Gain
        = (calculateFinancialMetrics (fp.withDownPayment 20) price rent).Total_Return ∧
    (calculateFinancialMetricsLTV fp price rent).Total_ROC
        = (calculateFinancialMetrics (fp.withDownPayment 20) price rent).Total_ROC := by
  have hloan : price * LOAN_TO_VALUE = price - price * ((20 : ℚ) / 100) := by
    rw [LOAN_TO_VALUE_eq]; ring
  have hdown : price * ((1 : ℚ) - LOAN_TO_VALUE) = price * ((20 : ℚ) / 100) := by
    rw [LOAN_TO_VALUE_eq]; ring
  simp only [calculateFinancialMetricsLTV, calculateFinancialMetrics,
    FixedParams.withDownPayment, hloan, hdown]
  refine ⟨by ring_nf, by ring_nf, by ring_nf, by ring_nf, by ring_nf, by ring_nf, by ring_nf,
    by ring_nf, by ring_nf, by ring_nf, by ring_nf, by ring_nf, by ring_nf, by ring_nf, by ring_nf⟩

/-! ## C4 — zero cash invested -/

/-- Parameter set with zero down payment and zero closing costs (so
`cash_invested = 0`), other assumptions at the dashboard defaults. -/
def zeroCashParams : Params :=
  { dashboardDefaults with down_payment_pct := 0, closing_cost_pct := 0 }

/-- C4 counterexample: with `down_payment_pct = 0` and `closing_cost_pct = 0`
(`cash_invested = 0`), the engine does NOT signal a DivisionByZero error: the
computation runs to completion and produces ratio values.  At price 200,
rent 3 the produced `Basic_CoC` is the unguarded division `Annual_CF / 0 * 100`
(`0` in this exact total-division embedding; pandas floats give `±inf`/`NaN`
without raising). -/
theorem zero_cash_invested_counterexample :
    (calculateFinancialMetrics zeroCashParams 200 3).Cash_In = 0 ∧
      (calculateFinancialMetrics zeroCashParams 200 3).Basic_CoC = 0 := by
  constructor
  · simp [calculateFinancialMetrics, zeroCashParams, dashboardDefaults]
  · simp [calculateFinancialMetrics, zeroCashParams, dashboardDefaults]

/-- C4 (amended): if `down_payment_pct = 0` and `closing_cost_pct = 0` then
for every row the engine still returns a full metrics record with
`Cash_In = 0`; no DivisionByZero is signaled, and the three ratio columns are
computed by unguarded division by `Cash_In` (yielding `0` in this exact
total-division embedding, non-finite floats in the pandas implementation). -/
theorem zero_cash_invested_no_error (p : Params) (price rent : ℚ)
    (hdp : p.down_payment_pct = 0) (hcc : p.closing_cost_pct = 0) :
    (calculateFinancialMetrics p price rent).Cash_In = 0 ∧
      (calculateFinancialMetrics p price rent).Basic_CoC = 0 ∧
      (calculateFinancialMetrics p price rent).Advanced_CoC = 0 ∧
      (calculateFinancialMetrics p price rent).Total_ROC = 0 := by
  refine ⟨?_, ?_, ?_, ?_⟩ <;>
    simp [calculateFinancialMetrics, hdp, hcc]

/-- Witness for `zero_cash_invested_no_error` at price 100, rent 1. -/
theorem zero_cash_invested_no_error_witness :
    (calculateFinancialMetrics zeroCashParams 100 1).Cash_In = 0 ∧
      (calculateFinancialMetrics zeroCashParams 100 1).Basic_CoC = 0 ∧
      (calculateFinancialMetrics zeroCashParams 100 1).Advanced_CoC = 0 ∧
      (calculateFinancialMetrics zeroCashParams 100 1).Total_ROC = 0 :=
  zero_cash_invested_no_error zeroCashParams 100 1 rfl rfl

/-! ## C1 — the Deal Analyzer total-return path -/

/-- For a positive loan and positive rate the annuity payment strictly exceeds
the first month's interest `L * r`. -/
lemma annuityPmt_gt_interest (L r : ℚ) (hL : 0 < L) (hr : 0 < r) :
    L * r < annuityPmt L r := by
  have hX : (1 : ℚ) < (1 + r) ^ months :=
    one_lt_pow₀ (by linarith) (by norm_num [months])
  have hd : (0 : ℚ) < (1 + r) ^ months - 1 := by linarith
  rw [annuityPmt, lt_div_iff₀ hd]
  nlinarith [mul_pos hL hr]

/-- As long as the balance stays below the cap `Lcap` and the payment exceeds
the interest on the cap, each loop iteration pays at least `pmt - Lcap * r`
of principal. -/
lemma amortize_paid_lower (pmt r Lcap : ℚ) (hr : 0 < r) (hpmt : Lcap * r < pmt) :
    ∀ (n : ℕ) (paid bal : ℚ), bal ≤ Lcap →
      paid + n * (pmt - Lcap * r) ≤ (amortize pmt r paid bal n).1 := by
  intro n
  induction n with
  | zero => intro paid bal _; simp [amortize]
  | succ n ih =>
      intro paid bal hbal
      rw [amortize]
      have hbr : bal * r ≤ Lcap * r := mul_le_mul_of_nonneg_right hbal (le_of_lt hr)
      have hbal2 : bal - (pmt - bal * r) ≤ Lcap := by linarith
      have h := ih (paid + (pmt - bal * r)) (bal - (pmt - bal * r)) hbal2
      push_cast
      linarith

/-- Starting the loop at balance `L` with the payment above the interest on
`L`, at least one iteration pays strictly positive total principal. -/
lemma amortize_paid_pos (pmt r L : ℚ) (hr : 0 < r) (hpmt : L * r < pmt)
    (n : ℕ) (hn : 1 ≤ n) :
    0 < (amortize pmt r 0 L n).1 := by
  have h := amortize_paid_lower pmt r L hr hpmt n 0 L le_rfl
  have hpos : 0 < pmt - L * r := by linarith
  have hn1 : (1 : ℚ) ≤ (n : ℚ) := by exact_mod_cast hn
  nlinarith

/-- The Deal Analyzer's multi-year total return differs from the batch
engine's `Total_Return` by exactly the first-year principal PLUS the
multi-year principal: line 227 of `src/app/dashboard_app.py` adds
`bal - loan_amount` (the negation of the year-one principal paid) where the
batch engine adds `Equity_From_Paydown` (the principal paid over
`appreciation_years * 12` months). -/
lemma dealAnalyzer_total_return_eq (p : Params) (price rent : ℚ) :
    (dealAnalyzer p price rent p.down_payment_pct).total_return
      = (calculateFinancialMetrics p price rent).Total_Return
        - ((amortize (annuityPmt (price - price * (p.down_payment_pct / 100)) (p.interest_rate / 100 / 12))
              (p.interest_rate / 100 / 12) 0 (price - price * (p.down_payment_pct / 100)) 12).1
           + (amortize (annuityPmt (price - price * (p.down_payment_pct / 100)) (p.interest_rate / 100 / 12))
              (p.interest_rate / 100 / 12) 0 (price - price * (p.down_payment_pct / 100))
              (p.appreciation_years * 12)).1) := by
  have hL : price * (1 - p.down_payment_pct / 100)
      = price - price * (p.down_payment_pct / 100) := by ring
  simp only [dealAnalyzer, calculateFinancialMetrics, hL]
  have hb := amortize_fst_add_snd
    (annuityPmt (price - price * (p.down_payment_pct / 100)) (p.interest_rate / 100 / 12))
    (p.interest_rate / 100 / 12) 12 0 (price - price * (p.down_payment_pct / 100))
  linear_combination hb

/-- C1: the metric composition is NOT reproduced identically across call
sites.  At the Deal Analyzer's own default input (price 400000, rent 2500,
20% down, dashboard default assumptions: 7% rate, 5-year horizon) the
Deal Analyzer's multi-year total return differs from the batch engine's
`Total_Return` (and hence from the spec formula the batch engine computes):
line 227 adds `bal - loan_amount = -(first-year principal)` instead of the
positive multi-year `total_principal`. -/
theorem deal_analyzer_total_return_diverges :
    (dealAnalyzer dashboardDefaults 400000 2500 20).total_return
      ≠ (calculateFinancialMetrics dashboardDefaults 400000 2500).Total_Return := by
  have hdp : (20 : ℚ) = dashboardDefaults.down_payment_pct := rfl
  rw [hdp, dealAnalyzer_total_return_eq]
  have hL : (0 : ℚ) < 400000 - 400000 * (dashboardDefaults.down_payment_pct / 100) := by
    norm_num [dashboardDefaults]
  have hr : (0 : ℚ) < dashboardDefaults.interest_rate / 100 / 12 := by
    norm_num [dashboardDefaults]
  have hpmt := annuityPmt_gt_interest _ _ hL hr
  have h1 := amortize_paid_pos _ _ _ hr hpmt 12 (by norm_num)
  have h2 := amortize_paid_pos _ _ _ hr hpmt
    (dashboardDefaults.appreciation_years * 12) (by norm_num [dashboardDefaults])
  intro hEq
  linarith

/-! ## C6 — monotonicity of basic_coc and first_year_roi -/

/-- Present-value identity: the inverse powers of `1 + r` sum to the annuity
factor's reciprocal numerator `((1+r)^n - 1) / (r (1+r)^n)`. -/
lemma inv_pow_sum_closed (r : ℚ) (hr : 0 < r) :
    ∀ n : ℕ, ∑ i ∈ Finset.range n, ((1 + r) ^ (i + 1))⁻¹
      = ((1 + r) ^ n - 1) / (r * (1 + r) ^ n) := by
  have hx : (0 : ℚ) < 1 + r := by linarith
  intro n
  induction n with
  | zero => simp
  | succ n ih =>
      rw [Finset.sum_range_succ, ih]
      have hxn : (1 + r) ^ n ≠ 0 := pow_ne_zero _ (ne_of_gt hx)
      have hxn1 : (1 + r) ^ (n + 1) ≠ 0 := pow_ne_zero _ (ne_of_gt hx)
      field_simp
      ring

/-- The source's annuity payment is the loan divided by the present-value
annuity factor. -/
lemma annuityPmt_eq_inv_pv (L r : ℚ) (hr : 0 < r) :
    annuityPmt L r = L * (∑ i ∈ Finset.range months, ((1 + r) ^ (i + 1))⁻¹)⁻¹ := by
  rw [inv_pow_sum_closed r hr months, annuityPmt]
  have hx : (0 : ℚ) < 1 + r := by linarith
  have hX : (1 : ℚ) < (1 + r) ^ months :=
    one_lt_pow₀ (by linarith) (by norm_num [months])
  have h1 : (1 + r) ^ months - 1 ≠ 0 := by linarith
  have h2 : (1 + r) ^ months ≠ 0 := pow_ne_zero _ (ne_of_gt hx)
  rw [inv_div]
  field_simp

/-- The mortgage payment is monotone in the monthly rate (for a nonnegative
loan and positive rates). -/
lemma annuityPmt_mono (L r1 r2 : ℚ) (hL : 0 ≤ L) (h1 : 0 < r1) (h12 : r1 ≤ r2) :
    annuityPmt L r1 ≤ annuityPmt L r2 := by
  have h2 : (0 : ℚ) < r2 := lt_of_lt_of_le h1 h12
  rw [annuityPmt_eq_inv_pv L r1 h1, annuityPmt_eq_inv_pv L r2 h2]
  have hne : (Finset.range months).Nonempty :=
    Finset.nonempty_range_iff.mpr (by norm_num [months])
  have hS2pos : 0 < ∑ i ∈ Finset.range months, ((1 + r2) ^ (i + 1))⁻¹ :=
    Finset.sum_pos (fun i _ => by positivity) hne
  have hS21 : (∑ i ∈ Finset.range months, ((1 + r2) ^ (i + 1))⁻¹)
      ≤ ∑ i ∈ Finset.range months, ((1 + r1) ^ (i + 1))⁻¹ := by
    refine Finset.sum_le_sum fun i _ => ?_
    have hle : (1 + r1) ^ (i + 1) ≤ (1 + r2) ^ (i + 1) :=
      pow_le_pow_left₀ (by linarith) (by linarith) _
    exact inv_anti₀ (by positivity) hle
  have hinv : (∑ i ∈ Finset.range months, ((1 + r1) ^ (i + 1))⁻¹)⁻¹
      ≤ (∑ i ∈ Finset.range months, ((1 + r2) ^ (i + 1))⁻¹)⁻¹ :=
    inv_anti₀ hS2pos hS21
  exact mul_le_mul_of_nonneg_left hinv hL

/-- Closed form for the first-year principal under the source's payment:
`L / (sum of ((1+r)^12)^j for j < 30)`. -/
lemma first_year_principal_eq (L r : ℚ) (hr : 0 < r) :
    (amortize (annuityPmt L r) r 0 L 12).1
      = L * (∑ j ∈ Finset.range 30, ((1 + r) ^ 12) ^ j)⁻¹ := by
  rw [amortize_annuity_paid L r hr 12]
  have hx : (1 : ℚ) < 1 + r := by linarith
  have hy : (1 : ℚ) < (1 + r) ^ 12 := one_lt_pow₀ hx (by norm_num)
  have hmonths : ((1 + r) ^ months) = ((1 + r) ^ 12) ^ 30 := by
    rw [← pow_mul]; norm_num [months]
  rw [hmonths]
  have hgeom : ((1 + r) ^ 12) ^ 30 - 1
      = (∑ j ∈ Finset.range 30, ((1 + r) ^ 12) ^ j) * ((1 + r) ^ 12 - 1) :=
    (geom_sum_mul _ _).symm
  rw [hgeom]
  have hS : 0 < ∑ j ∈ Finset.range 30, ((1 + r) ^ 12) ^ j :=
    Finset.sum_pos (fun i _ => by positivity) (Finset.nonempty_range_iff.mpr (by norm_num))
  have hy1 : (1 + r) ^ 12 - 1 ≠ 0 := by linarith
  field_simp
  ring

/-- The first-year principal is antitone in the monthly rate. -/
lemma first_year_principal_anti (L r1 r2 : ℚ) (hL : 0 ≤ L) (h1 : 0 < r1) (h12 : r1 ≤ r2) :
    (amortize (annuityPmt L r2) r2 0 L 12).1 ≤ (amortize (annuityPmt L r1) r1 0 L 12).1 := by
  have h2 : (0 : ℚ) < r2 := lt_of_lt_of_le h1 h12
  rw [first_year_principal_eq L r1 h1, first_year_principal_eq L r2 h2]
  have hne : (Finset.range 30).Nonempty := Finset.nonempty_range_iff.mpr (by norm_num)
  have hS1pos : 0 < ∑ j ∈ Finset.range 30, ((1 + r1) ^ 12) ^ j :=
    Finset.sum_pos (fun i _ => by positivity) hne
  have hS12 : (∑ j ∈ Finset.range 30, ((1 + r1) ^ 12) ^ j)
      ≤ ∑ j ∈ Finset.range 30, ((1 + r2) ^ 12) ^ j := by
    refine Finset.sum_le_sum fun j _ => ?_
    have hbase : (1 + r1) ^ 12 ≤ (1 + r2) ^ 12 :=
      pow_le_pow_left₀ (by linarith) (by linarith) _
    exact pow_le_pow_left₀ (by positivity) hbase _
  exact mul_le_mul_of_nonneg_left (inv_anti₀ hS1pos hS12) hL

/-- Explicit form of the `Basic_CoC` column. -/
lemma basicCoC_eq (p : Params) (price rent : ℚ) :
    (calculateFinancialMetrics p price rent).Basic_CoC
      = (rent - (annuityPmt (price - price * (p.down_payment_pct / 100)) (p.interest_rate / 100 / 12)
            + p.insurance_annual / 12 + price * p.maintenance_rate / 12 + rent * p.vacancy_rate
            + rent * p.property_mgmt_pct + p.capex_monthly + price * (p.property_tax_rate / 100) / 12)) * 12
          / (price * (p.down_payment_pct / 100) + price * (p.closing_cost_pct / 100)) * 100 := rfl

/-- Explicit form of the `Advanced_CoC` (first-year ROI) column. -/
lemma advancedCoC_eq (p : Params) (price rent : ℚ) :
    (calculateFinancialMetrics p price rent).Advanced_CoC
      = ((rent - (annuityPmt (price - price * (p.down_payment_pct / 100)) (p.interest_rate / 100 / 12)
            + p.insurance_annual / 12 + price * p.maintenance_rate / 12 + rent * p.vacancy_rate
            + rent * p.property_mgmt_pct + p.capex_monthly + price * (p.property_tax_rate / 100) / 12)) * 12
          + price * p.structure_pct / DEPRECIATION_YEARS * (p.marginal_tax_rate / 100)
          + (amortize (annuityPmt (price - price * (p.down_payment_pct / 100)) (p.interest_rate / 100 / 12))
              (p.interest_rate / 100 / 12) 0 (price - price * (p.down_payment_pct / 100)) 12).1)
          / (price * (p.down_payment_pct / 100) + price * (p.closing_cost_pct / 100)) * 100 := rfl

/-- C6 (amended): holding the other assumptions fixed, for rows with
`cash_invested > 0` and an assumption set in the engine's operating range
(`vacancy_rate + property_mgmt_pct ≤ 1` — without this the rent direction
reverses, see the counterexample — nonnegative price, down payment at most
100%, positive rates), `Basic_CoC` (basic_coc) and `Advanced_CoC`
(first_year_roi) are non-decreasing in rent and non-increasing in
interest_rate. -/
theorem metrics_monotone_rent_antitone_rate (p : Params) (price : ℚ)
    (hcash : 0 < price * (p.down_payment_pct / 100) + price * (p.closing_cost_pct / 100))
    (hvm : p.vacancy_rate + p.property_mgmt_pct ≤ 1)
    (hprice : 0 ≤ price) (hdp : p.down_payment_pct ≤ 100) :
    (∀ rent1 rent2 : ℚ, rent1 ≤ rent2 →
        (calculateFinancialMetrics p price rent1).Basic_CoC
            ≤ (calculateFinancialMetrics p price rent2).Basic_CoC ∧
        (calculateFinancialMetrics p price rent1).Advanced_CoC
            ≤ (calculateFinancialMetrics p price rent2).Advanced_CoC) ∧
    (∀ rent rate1 rate2 : ℚ, 0 < rate1 → rate1 ≤ rate2 →
        (calculateFinancialMetrics { p with interest_rate := rate2 } price rent).Basic_CoC
            ≤ (calculateFinancialMetrics { p with interest_rate := rate1 } price rent).Basic_CoC ∧
        (calculateFinancialMetrics { p with interest_rate := rate2 } price rent).Advanced_CoC
            ≤ (calculateFinancialMetrics { p with interest_rate := rate1 } price rent).Advanced_CoC) := by
  have hL0 : 0 ≤ price - price * (p.down_payment_pct / 100) := by
    have h := mul_le_mul_of_nonneg_left (show p.down_payment_pct / 100 ≤ 1 by linarith) hprice
    rw [mul_one] at h
    linarith
  constructor
  · intro rent1 rent2 h12
    have hnn : 0 ≤ (rent2 - rent1) * (1 - p.vacancy_rate - p.property_mgmt_pct) :=
      mul_nonneg (by linarith) (by linarith)
    constructor
    · rw [basicCoC_eq, basicCoC_eq]
      gcongr (?_ : ℚ) / _ * _
      nlinarith [hnn]
    · rw [advancedCoC_eq, advancedCoC_eq]
      gcongr (?_ : ℚ) / _ * _
      nlinarith [hnn]
  · intro rent rate1 rate2 hr1 hr12
    have hR1 : 0 < rate1 / 100 / 12 := by positivity
    have hR12 : rate1 / 100 / 12 ≤ rate2 / 100 / 12 := by
      have h100 : rate1 / 100 ≤ rate2 / 100 := by linarith
      linarith
    have hpmt := annuityPmt_mono (price - price * (p.down_payment_pct / 100)) _ _ hL0 hR1 hR12
    have hpaid := first_year_principal_anti (price - price * (p.down_payment_pct / 100)) _ _ hL0 hR1 hR12
    constructor
    · rw [basicCoC_eq, basicCoC_eq]
      dsimp only
      gcongr
    · rw [advancedCoC_eq, advancedCoC_eq]
      dsimp only
      gcongr

/-- Assumption set with 100% vacancy and 100% management fee (both within the
0..1 fraction range the data model declares for these fields). -/
def extremeFeeParams : Params :=
  { dashboardDefaults with vacancy_rate := 1, property_mgmt_pct := 1 }

/-- C6 counterexample: with every other assumption held fixed at values in the
declared 0..1 range (`vacancy_rate = 1`, `property_mgmt_pct = 1`) and
`cash_invested = 22 > 0`, RAISING rent from 0 to 1 strictly LOWERS
`Basic_CoC`: the claim's unconditional non-decrease in rent is false, because
each extra dollar of rent adds `vacancy_rate + property_mgmt_pct` dollars of
expense. -/
theorem monotonicity_in_rent_counterexample :
    (calculateFinancialMetrics extremeFeeParams 100 1).Basic_CoC
      < (calculateFinancialMetrics extremeFeeParams 100 0).Basic_CoC := by
  rw [basicCoC_eq, basicCoC_eq]
  simp only [extremeFeeParams, dashboardDefaults]
  norm_num
  linarith

/-- Witness for `metrics_monotone_rent_antitone_rate` at the dashboard
defaults, price 400000, rents 2500 and 2600. -/
theorem metrics_monotone_witness :
    (calculateFinancialMetrics dashboardDefaults 400000 2500).Basic_CoC
        ≤ (calculateFinancialMetrics dashboardDefaults 400000 2600).Basic_CoC ∧
    (calculateFinancialMetrics dashboardDefaults 400000 2500).Advanced_CoC
        ≤ (calculateFinancialMetrics dashboardDefaults 400000 2600).Advanced_CoC :=
  (metrics_monotone_rent_antitone_rate dashboardDefaults 400000
      (by norm_num [dashboardDefaults]) (by norm_num [dashboardDefaults])
      (by norm_num) (by norm_num [dashboardDefaults])).1 2500 2600 (by norm_num)

/-! ## Data preparation (C5, C8, C10) -/

/-- A raw input row: the `RegionName` value after pandas' `astype(str)`, and
the cells of the date columns.  A cell is `none` when the entry is missing or
non-numeric (what `pd.to_numeric(errors := coerce)` maps to `NaN`). -/
structure RawRow where
  region : String
  cell : String → Option ℚ

/-- A raw input table: its column names and its rows. -/
structure RawTable where
  cols : List String
  rows : List RawRow

/-- A column counts as a date column when its name contains exactly two
dashes (`col.count("-") == 2` in `prepare_merged_data`). -/
def isDateCol (s : String) : Bool := (s.toList.filter (fun c => c = '-')).length = 2

/-- The date columns of a table. -/
def dateCols (t : RawTable) : List String := t.cols.filter (fun c => isDateCol c)

/-- The date columns common to both tables. -/
def commonDates (h r : RawTable) : List String :=
  (dateCols h).filter (fun c => (dateCols r).contains c)

/-- The maximum of a list of strings: `sorted(set(...))[-1]` in the source. -/
def maxString : List String → Option String
  | [] => none
  | c :: cs => some (cs.foldl (fun a b => if a < b then b else a) c)

/-- The 30 hardcoded Colorado Springs ZIP labels of `filter_and_label_zips`
(`src/app/real_estate_logic.py`, lines 24-35). -/
def namesList : List (String × String) :=
  [("80902", "Fort Carson"), ("80903", "Downtown"), ("80904", "Old Colorado City"),
   ("80905", "Southwest"), ("80906", "Broadmoor"), ("80907", "North Central"),
   ("80908", "Black Forest"), ("80909", "East Central"), ("80910", "Southeast"),
   ("80911", "Security-Widefield"), ("80915", "Cimarron Hills"), ("80916", "South Central"),
   ("80917", "Village Seven"), ("80918", "Austin Bluffs"), ("80919", "Rockrimmon"),
   ("80920", "Briargate"), ("80921", "Northgate"), ("80922", "Stetson Hills"),
   ("80923", "Ridgeview"), ("80924", "Cordera"), ("80925", "Schriever Area"),
   ("80926", "Cheyenne Mountain"), ("80927", "Banning Lewis"), ("80928", "SE Rural"),
   ("80929", "Ellicott"), ("80930", "East Rural"), ("80938", "East Springs"),
   ("80939", "BL North"), ("80829", "Manitou"), ("80817", "Fountain")]

/-- The `Zip_Label` column of `filter_and_label_zips`:
`Zip_Code + " - " + Zip_Code.map(names)`, which is missing (`NaN`) exactly
when the ZIP is not in the hardcoded map. -/
def zipLabel (region : String) : Option String :=
  (namesList.lookup region).map (fun n => region ++ " - " ++ n)

/-- A surviving row of the merged local table (after the final `dropna`):
the key, its label, and the numeric price and rent at the chosen month. -/
structure MergedRow where
  zip : String
  label : String
  price : ℚ
  rent : ℚ
deriving DecidableEq

/-- The inner join of the two labelled subsets on `Zip_Code`, followed by
`to_numeric` and the trailing `dropna` of `prepare_merged_data`: a joined
pair survives exactly when the label lookup and both numeric cells at the
chosen month are present. -/
def joinRows (m : String) (h r : RawTable) : List MergedRow :=
  h.rows.flatMap (fun hrow => r.rows.filterMap (fun rrow =>
    if hrow.region = rrow.region then
      match zipLabel hrow.region, hrow.cell m, rrow.cell m with
      | some lab, some hp, some rv => some ⟨hrow.region, lab, hp, rv⟩
      | _, _, _ => none
    else none))

/-- Translation of `prepare_merged_data` (`src/app/real_estate_logic.py`,
lines 43-62): label both tables, take the latest common date column, join on
`Zip_Code`, coerce the month columns to numeric and drop incomplete rows;
`none` when there is no common date column. -/
def prepareMergedData (h r : RawTable) : Option (List MergedRow × String) :=
  match maxString (commonDates h r) with
  | none => none
  | some m => some (joinRows m h r, m)

/-- Python's `str.zfill` for the sign-free region keys of this data set:
left-pad with zeros to width `n`. -/
def zfill (n : ℕ) (s : String) : String :=
  ⟨List.replicate (n - s.length) '0' ++ s.data⟩

/-- A row of the national training table. -/
structure NatRow where
  zip : String
  price : ℚ
  rent : ℚ
deriving DecidableEq

/-- Translation of `get_national_training_data` (`src/app/real_estate_logic.py`,
lines 65-77): zero-pad both key columns to width 5, join on the padded key at
the given month, drop incomplete rows, and keep only rows with positive price
and rent. -/
def getNationalTrainingData (h r : RawTable) (m : String) : List NatRow :=
  h.rows.flatMap (fun hrow => r.rows.filterMap (fun rrow =>
    if zfill 5 hrow.region = zfill 5 rrow.region then
      match hrow.cell m, rrow.cell m with
      | some hp, some rv =>
          if 0 < hp ∧ 0 < rv then some ⟨zfill 5 hrow.region, hp, rv⟩ else none
      | _, _ => none
    else none))

/-- Every surviving merged row comes from a home row and a rent row with the
same region key, a successful label lookup, and present numeric price and
rent cells at the merge month. -/
lemma mem_joinRows {m : String} {h r : RawTable} {row : MergedRow}
    (hmem : row ∈ joinRows m h r) :
    ∃ hrow ∈ h.rows, ∃ rrow ∈ r.rows,
      hrow.region = row.zip ∧ rrow.region = row.zip ∧
      zipLabel row.zip = some row.label ∧
      hrow.cell m = some row.price ∧ rrow.cell m = some row.rent := by
  rw [joinRows, List.mem_flatMap] at hmem
  obtain ⟨hrow, hh, hmem⟩ := hmem
  rw [List.mem_filterMap] at hmem
  obtain ⟨rrow, hr2, heq⟩ := hmem
  split_ifs at heq with hreg
  · cases hlab : zipLabel hrow.region with
    | none => rw [hlab] at heq; simp at heq
    | some lab =>
      cases hcellh : hrow.cell m with
      | none => rw [hlab, hcellh] at heq; simp at heq
      | some hp =>
        cases hcellr : rrow.cell m with
        | none => rw [hlab, hcellh, hcellr] at heq; simp at heq
        | some rv =>
          rw [hlab, hcellh, hcellr] at heq
          simp only [Option.some.injEq] at heq
          subst heq
          exact ⟨hrow, hh, rrow, hr2, rfl, hreg.symm, hlab, hcellh, hcellr⟩

/-- A successful association-list lookup means the key occurs in the list. -/
lemma mem_map_fst_of_lookup_eq_some {k v : String} :
    ∀ l : List (String × String), l.lookup k = some v → k ∈ l.map Prod.fst := by
  intro l
  induction l with
  | nil => intro hc; simp [List.lookup] at hc
  | cons a t ih =>
      obtain ⟨k1, v1⟩ := a
      intro hc
      simp only [List.lookup] at hc
      cases hbeq : (k == k1) with
      | true =>
          have hk : k = k1 := eq_of_beq hbeq
          simp [hk]
      | false =>
          rw [hbeq] at hc
          simpa using Or.inr (ih hc)

/-- Every key of the hardcoded ZIP label map is a 5-character string. -/
lemma namesList_key_length : ∀ k ∈ namesList.map Prod.fst, k.length = 5 := by decide

/-- Zero-padding is the identity on strings that already have the full
width. -/
lemma zfill_eq_self {s : String} (hlen : 5 ≤ s.length) : zfill 5 s = s := by
  obtain ⟨data⟩ := s
  simp only [zfill, String.length] at *
  rw [Nat.sub_eq_zero_of_le hlen, List.replicate_zero, List.nil_append]

/-- Specification of the surviving merged rows: whitelisted key, and
provenance from both tables with present numeric cells at the merge month. -/
lemma prepareMergedData_mem_spec {h r : RawTable} {rows : List MergedRow} {m : String}
    (hEq : prepareMergedData h r = some (rows, m)) {row : MergedRow} (hrow : row ∈ rows) :
    row.zip ∈ namesList.map Prod.fst ∧
      (∃ hrow2 ∈ h.rows, hrow2.region = row.zip ∧ hrow2.cell m = some row.price) ∧
      (∃ rrow ∈ r.rows, rrow.region = row.zip ∧ rrow.cell m = some row.rent) := by
  rw [prepareMergedData] at hEq
  rcases hmax : maxString (commonDates h r) with _ | m0 <;> rw [hmax] at hEq
  · exact absurd hEq (by simp)
  · simp only [Option.some.injEq, Prod.mk.injEq] at hEq
    obtain ⟨hrows, hm⟩ := hEq
    rw [← hrows] at hrow
    rw [← hm]
    obtain ⟨hrow2, hh2, rrow, hr2, hregh, hregr, hlab, hcellh, hcellr⟩ := mem_joinRows hrow
    refine ⟨?_, ⟨hrow2, hh2, hregh, ?_⟩, ⟨rrow, hr2, hregr, ?_⟩⟩
    · rw [zipLabel] at hlab
      cases hlook : namesList.lookup row.zip with
      | none => rw [hlook] at hlab; simp at hlab
      | some name => exact mem_map_fst_of_lookup_eq_some namesList hlook
    · exact hcellh
    · exact hcellr

/-! ## C10 — the hardcoded local whitelist -/

/-- C10: the merged local table only ever contains regions whose key is one
of the 30 hardcoded Colorado Springs ZIP codes of `filter_and_label_zips`:
a row whose key is missing from the label map gets a missing `Zip_Label` and
is removed by the final `dropna`, whatever regions the input tables held. -/
theorem merged_rows_restricted_to_whitelist
    (h r : RawTable) (rows : List MergedRow) (m : String)
    (hEq : prepareMergedData h r = some (rows, m)) :
    ∀ row ∈ rows, row.zip ∈ namesList.map Prod.fst :=
  fun _ hrow => (prepareMergedData_mem_spec hEq hrow).1

/-- Concrete input tables with one Colorado Springs row (price 400000,
rent 2500) at a single common month. -/
def homeTablePos : RawTable :=
  ⟨["RegionName", "2024-01-31"],
   [⟨"80903", fun c => if c = "2024-01-31" then some 400000 else none⟩]⟩

/-- Rent-side counterpart of `homeTablePos`. -/
def rentTablePos : RawTable :=
  ⟨["RegionName", "2024-01-31"],
   [⟨"80903", fun c => if c = "2024-01-31" then some 2500 else none⟩]⟩

/-- Evaluation of the pipeline on the concrete positive tables. -/
lemma prepareMergedData_pos_eq :
    prepareMergedData homeTablePos rentTablePos
      = some ([⟨"80903", "80903 - Downtown", 400000, 2500⟩], "2024-01-31") := by
  decide

/-- Witness for `merged_rows_restricted_to_whitelist` on the concrete
tables. -/
theorem merged_rows_restricted_to_whitelist_witness :
    ("80903" : String) ∈ namesList.map Prod.fst :=
  merged_rows_restricted_to_whitelist homeTablePos rentTablePos
    [⟨"80903", "80903 - Downtown", 400000, 2500⟩] "2024-01-31"
    prepareMergedData_pos_eq ⟨"80903", "80903 - Downtown", 400000, 2500⟩ (by simp)

/-! ## C8 — key normalization and the inner join -/

/-- C8: every region key appearing in the merged output of
`prepare_merged_data` is the string form of the contributing input
identifiers (the same key on the home and the rent side — inner join), it is
5 characters long, and it is fixed by the width-5 zero-padding `zfill 5`
used for the national training set: applying the national normalization to
the merged keys changes nothing.  (The local path itself calls `astype(str)`
without `zfill`, but the label-map `dropna` of C10 removes every key not
already in 5-character form, so each surviving key coincides with the
5-character zero-padded form of its identifier.) -/
theorem merged_keys_zero_padded (h r : RawTable) (rows : List MergedRow) (m : String)
    (hEq : prepareMergedData h r = some (rows, m)) :
    ∀ row ∈ rows, row.zip.length = 5 ∧ zfill 5 row.zip = row.zip ∧
      (∃ hrow2 ∈ h.rows, hrow2.region = row.zip) ∧
      (∃ rrow ∈ r.rows, rrow.region = row.zip) := by
  intro row hrow
  obtain ⟨hwl, ⟨hrow2, hh2, hreg2, _⟩, ⟨rrow, hr2, hreg3, _⟩⟩ :=
    prepareMergedData_mem_spec hEq hrow
  have hlen : row.zip.length = 5 := namesList_key_length row.zip hwl
  exact ⟨hlen, zfill_eq_self (le_of_eq hlen.symm), ⟨hrow2, hh2, hreg2⟩, ⟨rrow, hr2, hreg3⟩⟩

/-- Witness for `merged_keys_zero_padded` on the concrete tables. -/
theorem merged_keys_zero_padded_witness :
    ("80903" : String).length = 5 ∧ zfill 5 "80903" = "80903" ∧
      (∃ hrow2 ∈ homeTablePos.rows, hrow2.region = "80903") ∧
      (∃ rrow ∈ rentTablePos.rows, rrow.region = "80903") :=
  merged_keys_zero_padded homeTablePos rentTablePos
    [⟨"80903", "80903 - Downtown", 400000, 2500⟩] "2024-01-31"
    prepareMergedData_pos_eq ⟨"80903", "80903 - Downtown", 400000, 2500⟩ (by simp)

/-! ## C5 — which records participate -/

/-- Home table whose single Colorado Springs row has a NEGATIVE price. -/
def homeTableNeg : RawTable :=
  ⟨["RegionName", "2024-01-31"],
   [⟨"80903", fun c => if c = "2024-01-31" then some (-5) else none⟩]⟩

/-- Rent-side counterpart of `homeTableNeg` (positive rent 1000). -/
def rentTableNeg : RawTable :=
  ⟨["RegionName", "2024-01-31"],
   [⟨"80903", fun c => if c = "2024-01-31" then some 1000 else none⟩]⟩

/-- C5 counterexample: the local merged table produced by
`prepare_merged_data` KEEPS records with non-positive price: its `dropna`
only removes missing/non-numeric entries, and no positivity filter is
applied on the local path (only `get_national_training_data` has one).  On
these concrete tables the merged output contains the row with
`Home_Price = -5 ≤ 0`, which then participates in the downstream metrics. -/
theorem merged_keeps_nonpositive_price :
    prepareMergedData homeTableNeg rentTableNeg
      = some ([⟨"80903", "80903 - Downtown", -5, 1000⟩], "2024-01-31") ∧
      ¬(0 < (-5 : ℚ)) :=
  ⟨by decide, by norm_num⟩

/-- C5 (amended): records with missing or non-numeric price or rent are
dropped during preparation on both paths, and every record of the NATIONAL
training set additionally has positive price and rent; the LOCAL merged
table, however, has no positivity filter — its rows carry whatever numeric
cell values their source rows had (see the counterexample for a surviving
non-positive price). -/
theorem preparation_drop_filters (h r : RawTable) (m : String) :
    (∀ row ∈ getNationalTrainingData h r m, 0 < row.price ∧ 0 < row.rent) ∧
    (∀ (rows : List MergedRow) (m2 : String), prepareMergedData h r = some (rows, m2) →
      ∀ row ∈ rows, (∃ hrow2 ∈ h.rows, hrow2.cell m2 = some row.price) ∧
        (∃ rrow ∈ r.rows, rrow.cell m2 = some row.rent)) := by
  constructor
  · intro row hmem
    rw [getNationalTrainingData, List.mem_flatMap] at hmem
    obtain ⟨hrow, hh, hmem⟩ := hmem
    rw [List.mem_filterMap] at hmem
    obtain ⟨rrow, hr2, heq⟩ := hmem
    split_ifs at heq with hreg
    · cases hch : hrow.cell m with
      | none => rw [hch] at heq; simp at heq
      | some hp =>
        cases hcr : rrow.cell m with
        | none => rw [hch, hcr] at heq; simp at heq
        | some rv =>
          rw [hch, hcr] at heq
          dsimp only at heq
          split_ifs at heq with hpos
          simp only [Option.some.injEq] at heq
          subst heq
          exact hpos
  · intro rows m2 hEq row hrow
    obtain ⟨_, ⟨hrow2, hh2, _, hcell⟩, ⟨rrow, hr2, _, hcell2⟩⟩ :=
      prepareMergedData_mem_spec hEq hrow
    exact ⟨⟨hrow2, hh2, hcell⟩, ⟨rrow, hr2, hcell2⟩⟩

/-- Witness for `preparation_drop_filters` on the concrete positive tables. -/
theorem preparation_drop_filters_witness :
    (0 < (400000 : ℚ) ∧ 0 < (2500 : ℚ)) ∧
      ((∃ hrow2 ∈ homeTablePos.rows, hrow2.cell "2024-01-31" = some 400000) ∧
        (∃ rrow ∈ rentTablePos.rows, rrow.cell "2024-01-31" = some 2500)) :=
  ⟨(preparation_drop_filters homeTablePos rentTablePos "2024-01-31").1
      ⟨"80903", 400000, 2500⟩ (by decide),
    (preparation_drop_filters homeTablePos rentTablePos "2024-01-31").2
      [⟨"80903", "80903 - Downtown", 400000, 2500⟩] "2024-01-31"
      prepareMergedData_pos_eq ⟨"80903", "80903 - Downtown", 400000, 2500⟩ (by simp)⟩

/-! ## C9 — the per-ZIP adjustment ratio -/

/-- The national log-log model's rent prediction,
`np.exp(intercept_nat + slope_nat * np.log(price))` (lines 147 and 157 of
`src/app/dashboard_app.py`), over the reals. -/
noncomputable def predictRent (intercept slope price : ℝ) : ℝ :=
  Real.exp (intercept + slope * Real.log price)

/-- Line 158 of `src/app/dashboard_app.py`:
`adjustment_ratio = actual / expected if expected > 0 else 1.0`. -/
noncomputable def adjustmentRatio (actual expected : ℝ) : ℝ :=
  if 0 < expected then actual / expected else 1

/-- C9: for every fitted model `(intercept, slope)` and every observation
with positive home price, the adjustment ratio equals
`observation.rent / predict(model, observation.home_price)`; the guard's
default branch yields 1.0 when the prediction is not positive (in
particular when it is zero), though it is unreachable for an exact
exponential prediction; and the ratio equals 1.0 exactly when the observed
rent equals the model's own prediction at the observation's price. -/
theorem adjustment_ratio_spec (intercept slope price rent : ℝ) (_hprice : 0 < price) :
    adjustmentRatio rent (predictRent intercept slope price)
        = rent / predictRent intercept slope price ∧
      (∀ a : ℝ, adjustmentRatio a 0 = 1) ∧
      (adjustmentRatio rent (predictRent intercept slope price) = 1 ↔
        rent = predictRent intercept slope price) := by
  have hpos : 0 < predictRent intercept slope price := Real.exp_pos _
  refine ⟨if_pos hpos, fun a => if_neg (lt_irrefl 0), ?_⟩
  rw [adjustmentRatio, if_pos hpos]
  exact div_eq_one_iff_eq (ne_of_gt hpos)

/-- Witness for `adjustment_ratio_spec` at intercept 0, slope 0, price 1,
rent 2. -/
theorem adjustment_ratio_spec_witness :
    (adjustmentRatio 2 (predictRent 0 0 1) = 2 / predictRent 0 0 1) ∧
      adjustmentRatio 5 0 = 1 ∧
      (adjustmentRatio 2 (predictRent 0 0 1) = 1 ↔ (2 : ℝ) = predictRent 0 0 1) :=
  ⟨(adjustment_ratio_spec 0 0 1 2 one_pos).1,
    (adjustment_ratio_spec 0 0 1 2 one_pos).2.1 5,
    (adjustment_ratio_spec 0 0 1 2 one_pos).2.2⟩

end RentalDashboard
